import Mathlib

/-!
Verification development for the bookInfoAutomation repository
(src/main.py, src/test.py): a pipeline that scans PDF files for the
Japanese book JAN code (a pair of EAN-13 barcodes: an ISBN starting
"978"/"979" and a detail code starting "192"), looks up metadata by ISBN,
stores it in a CSV database and copies the file under a sanitized name.

The embedding is shallow: pure decision logic is translated to Lean
functions; external collaborators (PDF rasterizer, barcode decoder, HTTP,
filesystem) are abstracted as inputs.  Python integers are arbitrary
precision, so `Int`/`Nat` model them exactly; Python exceptions are
modelled with `Except String`.
-/

deriving instance DecidableEq for Except

namespace BookInfo

/-- Python's `str.startswith(pre)`: character-level prefix test. -/
def strStartsWith (s pre : String) : Bool :=
  pre.data.isPrefixOf s.data

/-- The `starting_point` / `startingPoint` argument: `"first"` or `"end"`. -/
inductive Anchor where
  | first
  | atEnd
deriving DecidableEq

/-- The `book_JAN` dictionary accumulated by `read_code` (src/main.py:48):
a Python dict that can hold the keys `"isbn"` and `"detailed_code"`.
Each field is `none` while the key is absent. -/
structure BookJAN where
  isbn : Option String
  detailed_code : Option String
deriving DecidableEq

/-- The empty dict `book_JAN = {}` of src/main.py:48. -/
def BookJAN.empty : BookJAN := ⟨none, none⟩

/-- `len(book_JAN)`: the number of keys present in the dict. -/
def BookJAN.size (j : BookJAN) : Nat :=
  (if j.isbn.isSome then 1 else 0) + (if j.detailed_code.isSome then 1 else 0)

/-- One iteration of the inner loop of `read_code` (src/main.py:84-90).
A decoded EAN-13 payload is modelled as the natural number `int(i.data)`;
`str(int(i.data))` is `Nat.repr`.  A payload starting with "978" or "979"
fills the `isbn` slot, one starting with "192" fills the `detailed_code`
slot, anything else is ignored (the `else: pass` branch). -/
def classifyPayload (j : BookJAN) (p : Nat) : BookJAN :=
  if strStartsWith (Nat.repr p) "978" || strStartsWith (Nat.repr p) "979" then
    { j with isbn := some (Nat.repr p) }
  else if strStartsWith (Nat.repr p) "192" then
    { j with detailed_code := some (Nat.repr p) }
  else j

/-- Whether a payload matches one of the recognized book-JAN prefixes
tested in src/main.py:85-87. -/
def recognized (p : Nat) : Bool :=
  strStartsWith (Nat.repr p) "978" || strStartsWith (Nat.repr p) "979" ||
    strStartsWith (Nat.repr p) "192"

/-- `true` when no payload of the page matches a recognized prefix. -/
def allUnrecognized (pg : List Nat) : Bool :=
  pg.all (fun p => !recognized p)

/-- The loop over `page_range` of `read_code` (src/main.py:68-93).
`pages` is the list of per-page decoded payload lists, in scan order
(the barcode decoder is an external collaborator; its per-page output is
the input here).  A page with `len(bcodes) <= 1 or len(bcodes) >= 3` is
skipped (`continue`); otherwise its payloads are classified into the
accumulated dict, and the loop `break`s once `len(book_JAN) == 2`. -/
def scanPages : List (List Nat) → BookJAN → BookJAN
  | [], j => j
  | pg :: rest, j =>
    if pg.length ≤ 1 ∨ pg.length ≥ 3 then scanPages rest j
    else if (pg.foldl classifyPayload j).size = 2 then pg.foldl classifyPayload j
    else scanPages rest (pg.foldl classifyPayload j)

/-- The length of the `page_range` built in src/main.py:56-61:
`range(-number_of_pages, 0)` for `"end"`, `range(0, number_of_pages)`
for `"first"`.  Both have `max number_of_pages 0` elements. -/
def pageRangeLen (number_of_pages : Int) (_ : Anchor) : Nat :=
  number_of_pages.toNat

/-- `read_code` (src/main.py:18-98).  `hasPdfExt` abstracts the check
`os.path.splitext(pdf_path)[1] != ".pdf"`; `page_count` is
`doc.page_count`; `pages` is the decoder output for each page of the
scanned range, in scan order.  Raises (models `ValueError`) when the
file is not a PDF or when `len(page_range) > doc.page_count`; otherwise
scans, then returns the dict when `bool(book_JAN)` is true (the dict is
non-empty, src/main.py:95) and the input path when it is empty. -/
def read_code (pdf_path : String) (hasPdfExt : Bool) (page_count : Nat)
    (number_of_pages : Int) (sp : Anchor) (pages : List (List Nat)) :
    Except String (BookJAN ⊕ String) :=
  if !hasPdfExt then .error "not a PDF"
  else if pageRangeLen number_of_pages sp > page_count then
    .error "page range exceeds page count"
  else if (scanPages pages BookJAN.empty).isbn.isSome ||
      (scanPages pages BookJAN.empty).detailed_code.isSome then
    .ok (.inl (scanPages pages BookJAN.empty))
  else .ok (.inr pdf_path)

/-- `pageSelector` (src/test.py:6-40).  `number_of_pages` is
`len(pdf.pages)` of the opened PDF, `pageAmount` the requested window.
For `"end"`, `last_page = number_of_pages` and
`first_page = number_of_pages - (pageAmount - 1)`, raising when
`first_page < 1`.  For `"first"`, `first_page = 1` and
`last_page = number_of_pages + (pageAmount - 1)`, raising when
`last_page > number_of_pages`.  Returns the dict
`{"first_page": ..., "last_page": ...}` as a pair. -/
def pageSelector (number_of_pages : Int) (pageAmount : Int) (sp : Anchor) :
    Except String (Int × Int) :=
  match sp with
  | .atEnd =>
    if number_of_pages - (pageAmount - 1) < 1 then .error "Out of range"
    else .ok (number_of_pages - (pageAmount - 1), number_of_pages)
  | .first =>
    if number_of_pages + (pageAmount - 1) > number_of_pages then .error "Out of range"
    else .ok (1, number_of_pages + (pageAmount - 1))

/-- A child element of the catalog response's `item` element, already
reduced to the composite key `tag + str(attrib)` and its text, as
consumed by the loop in src/main.py:125-126. -/
structure ItemField where
  key : String
  text : Option String
deriving DecidableEq

/-- A book-information record: the ordered field map built by `get_info`
and consumed by `add_database` / `copy_and_name`. -/
abbrev BookRecord := List (String × Option String)

/-- `get_info` (src/main.py:101-128).  The HTTP fetch and XML parse are
external; `findItem` is the result of `root.find(".//item")`: `none`
when the response has no `item` element, otherwise the list of its child
elements.  On `none` it raises `ValueError` (the lookup-not-found
error, src/main.py:121-122); otherwise it returns the map seeded with
`isbn` and extended with one entry per child. -/
def get_info (isbn : String) (findItem : Option (List ItemField)) :
    Except String BookRecord :=
  match findItem with
  | none => .error "lookup not found"
  | some children =>
    .ok (("isbn", some isbn) :: children.map (fun e => (e.key, e.text)))

/-- One row of the CSV database, reduced to the field `add_database`
inspects: the `isbn` column as the integer pandas reads back. -/
structure BookRow where
  isbn : Nat
deriving DecidableEq

/-- The result of one `add_database` call: the new store contents and
whether the duplicate message was printed. -/
structure AddResult where
  store : List BookRow
  duplicateReported : Bool
deriving DecidableEq

/-- `add_database` (src/main.py:131-154).  `store` is the row list of
`book_infoAutomation.csv` (created empty when absent — an empty list
either way), `isbn` is `int(book_info["isbn"])`.  The code computes
`result = (df["isbn"] == int(book_info["isbn"]))` and prints the
duplicate message when `result.sum() > 0`, but then falls through: lines
151-153 build `df_add`, concatenate and write back unconditionally, so
the row is appended even when a duplicate was found. -/
def add_database (store : List BookRow) (isbn : Nat) : AddResult :=
  { store := store ++ [⟨isbn⟩]
    duplicateReported := store.any (fun row => row.isbn = isbn) }

/-- The forbidden-character test of the regex character class in
src/main.py:184 (slash, colon, asterisk, question mark, double quote,
angle brackets, vertical bar; `Char.ofNat 34` is the double quote). -/
def isForbiddenChar (c : Char) : Bool :=
  c = '/' || c = ':' || c = '*' || c = '?' || c = Char.ofNat 34 ||
    c = '<' || c = '>' || c = '|'

/-- The forbidden characters as a list, in the order of the regex. -/
def forbiddenList : List Char :=
  ['/', ':', '*', '?', Char.ofNat 34, '<', '>', '|']

/-- One character's fate under the substitution of src/main.py:183-184,
where `replace_with` is the single glyph `⦸`. -/
def replaceChar (c : Char) : Char :=
  if isForbiddenChar c then '⦸' else c

/-- The whole-name substitution: every forbidden character is replaced
by the glyph, every other character kept. -/
def sanitizeName (s : String) : String :=
  ⟨s.data.map replaceChar⟩

/-- The filename built by `copy_and_name` (src/main.py:157-188):
`f_name = title + "_" + book_issue_num + isbn + ".pdf"` followed by the
forbidden-character substitution.  `book_issue_num` is either `""` or
the volume digits followed by `"巻_"`, computed from the description
field; it is passed in here already formed. -/
def copy_and_name_filename (title book_issue_num isbn : String) : String :=
  sanitizeName (title ++ "_" ++ book_issue_num ++ isbn ++ ".pdf")

/-- Abstract per-file behaviour of the pipeline stages as seen by
`main` (src/main.py:202-269).  `readCode` is the outcome of
`read_code(i, 3, "end")`: `.error` when it raises, `.ok none` when it
returns the path sentinel, `.ok (some j)` when it returns a dict.  The
Booleans say whether each later external call succeeds (`true`) or
raises (`false`): `lookup`/`store`/`copy` in the automatic pass,
`manualSkip` whether the user types `"!"` at the prompt, and
`lookup2`/`store2`/`copy2` for the manual second pass. -/
structure FileSpec where
  path : String
  readCode : Except Unit (Option BookJAN)
  lookup : Bool
  store : Bool
  copy : Bool
  manualSkip : Bool
  lookup2 : Bool
  store2 : Bool
  copy2 : Bool
deriving DecidableEq

/-- `true` when `read_code(i, 3, "end")` raises for this file. -/
def FileSpec.readRaises (f : FileSpec) : Bool :=
  match f.readCode with
  | .error _ => true
  | .ok _ => false

/-- The stages of a file's pipeline that `main` does NOT wrap in `try`
all succeed: `read_code` does not raise, the automatic-pass copy
succeeds, and the manual pass is either skipped with `"!"` or runs all
three of its calls without raising.  (The automatic-pass `get_info` and
`add_database` are wrapped in bare `except:` and may fail freely.) -/
def FileSpec.uncaughtStagesOk (f : FileSpec) : Bool :=
  !f.readRaises && f.copy && (f.manualSkip || (f.lookup2 && f.store2 && f.copy2))

/-- The driver's mutable state: files fully processed (record stored and
file copied), the `error_pathes` list of pass 1, and `still_cant_find`
of pass 2. -/
structure DriverState where
  processed : List String
  errorFiles : List FileSpec
  still_cant_find : List String
deriving DecidableEq

/-- The first loop of `main` (src/main.py:214-240).  `read_code` is
called outside any `try`, so its exceptions abort the batch;
`get_info` and `add_database` failures are caught by bare `except:` and
skip the file; `copy_and_name` (line 238) is outside any `try`, so its
exceptions abort the batch.  An abort carries the state reached so far. -/
def runPass1 : List FileSpec → DriverState → Except DriverState DriverState
  | [], st => .ok st
  | f :: rest, st =>
    match f.readCode with
    | .error _ => .error st
    | .ok none =>
      runPass1 rest { st with errorFiles := st.errorFiles ++ [f] }
    | .ok (some _) =>
      if !f.lookup then runPass1 rest st
      else if !f.store then runPass1 rest st
      else if !f.copy then .error st
      else runPass1 rest { st with processed := st.processed ++ [f.path] }

/-- The manual-entry loop of `main` (src/main.py:250-263).  Typing `"!"`
moves the file to `still_cant_find`; otherwise `get_info`,
`add_database` and `copy_and_name` all run outside any `try`, so any
failure aborts the batch. -/
def runPass2 : List FileSpec → DriverState → Except DriverState DriverState
  | [], st => .ok st
  | f :: rest, st =>
    if f.manualSkip then
      runPass2 rest { st with still_cant_find := st.still_cant_find ++ [f.path] }
    else if !f.lookup2 then .error st
    else if !f.store2 then .error st
    else if !f.copy2 then .error st
    else runPass2 rest { st with processed := st.processed ++ [f.path] }

/-- `main` (src/main.py:202-269): pass 1 over the PDF files of the
source directory, then pass 2 over the files whose barcode scan
returned the path sentinel. -/
def main (files : List FileSpec) : Except DriverState DriverState :=
  match runPass1 files ⟨[], [], []⟩ with
  | .error st => .error st
  | .ok st => runPass2 st.errorFiles st

/-- Example file whose automatic-pass copy step raises; all earlier
stages succeed. -/
def fileCopyFails : FileSpec :=
  ⟨"a.pdf", .ok (some ⟨some "9784063600568", some "1920001234567"⟩),
    true, true, false, false, true, true, true⟩

/-- Example file for which every stage succeeds. -/
def fileAllOk : FileSpec :=
  ⟨"b.pdf", .ok (some ⟨some "9784569999999", some "1920009999999"⟩),
    true, true, true, false, true, true, true⟩

/-- Example file whose barcode scan succeeds but whose catalog lookup
raises; the remaining stages would succeed. -/
def fileLookupFails : FileSpec :=
  ⟨"x.pdf", .ok (some ⟨some "9784063600568", some "1920001234567"⟩),
    false, true, true, false, true, true, true⟩

/-- Example file whose automatic-pass lookup raises and which would be
skipped with `"!"` in the manual pass. -/
def fileLookupFailsSkip : FileSpec :=
  ⟨"c.pdf", .ok (some BookJAN.empty), false, true, true, true, true, true, true⟩

/-! Helper lemmas. -/

theorem classifyPayload_isbn_mono (j : BookJAN) (p : Nat) (h : j.isbn.isSome = true) :
    (classifyPayload j p).isbn.isSome = true := by
  unfold classifyPayload
  split
  · rfl
  · split
    · exact h
    · exact h

theorem classifyPayload_detail_mono (j : BookJAN) (p : Nat)
    (h : j.detailed_code.isSome = true) :
    (classifyPayload j p).detailed_code.isSome = true := by
  unfold classifyPayload
  split
  · exact h
  · split
    · rfl
    · exact h

theorem foldl_classifyPayload_isbn_mono (pg : List Nat) (j : BookJAN)
    (h : j.isbn.isSome = true) :
    (pg.foldl classifyPayload j).isbn.isSome = true := by
  induction pg generalizing j with
  | nil => exact h
  | cons p rest ih => exact ih _ (classifyPayload_isbn_mono j p h)

theorem foldl_classifyPayload_detail_mono (pg : List Nat) (j : BookJAN)
    (h : j.detailed_code.isSome = true) :
    (pg.foldl classifyPayload j).detailed_code.isSome = true := by
  induction pg generalizing j with
  | nil => exact h
  | cons p rest ih => exact ih _ (classifyPayload_detail_mono j p h)

theorem scanPages_isbn_mono (pgs : List (List Nat)) (j : BookJAN)
    (h : j.isbn.isSome = true) :
    (scanPages pgs j).isbn.isSome = true := by
  induction pgs generalizing j with
  | nil => exact h
  | cons pg rest ih =>
    unfold scanPages
    split
    · exact ih j h
    · split
      · exact foldl_classifyPayload_isbn_mono pg j h
      · exact ih _ (foldl_classifyPayload_isbn_mono pg j h)

theorem scanPages_detail_mono (pgs : List (List Nat)) (j : BookJAN)
    (h : j.detailed_code.isSome = true) :
    (scanPages pgs j).detailed_code.isSome = true := by
  induction pgs generalizing j with
  | nil => exact h
  | cons pg rest ih =>
    unfold scanPages
    split
    · exact ih j h
    · split
      · exact foldl_classifyPayload_detail_mono pg j h
      · exact ih _ (foldl_classifyPayload_detail_mono pg j h)

theorem classifyPayload_unrecognized (j : BookJAN) (p : Nat) (h : recognized p = false) :
    classifyPayload j p = j := by
  unfold recognized at h
  simp only [Bool.or_eq_false_iff] at h
  unfold classifyPayload
  rw [if_neg, if_neg]
  · simp [h.2]
  · simp [h.1.1, h.1.2]

theorem foldl_classifyPayload_unrecognized (pg : List Nat) (j : BookJAN)
    (h : allUnrecognized pg = true) : pg.foldl classifyPayload j = j := by
  induction pg generalizing j with
  | nil => rfl
  | cons p rest ih =>
    simp only [allUnrecognized, List.all_cons, Bool.and_eq_true, Bool.not_eq_true'] at h
    rw [List.foldl_cons, classifyPayload_unrecognized j p h.1]
    exact ih j (by simpa [allUnrecognized] using h.2)

theorem replaceChar_not_forbidden (c : Char) : isForbiddenChar (replaceChar c) = false := by
  unfold replaceChar
  split
  · decide
  · rename_i h
    simpa using h

theorem runPass1_no_abort (files : List FileSpec) (st : DriverState)
    (h : ∀ f ∈ files, f.readRaises = false ∧ f.copy = true) :
    ∃ st2, runPass1 files st = .ok st2 ∧
      ∀ f ∈ st2.errorFiles, f ∈ st.errorFiles ∨ f ∈ files := by
  induction files generalizing st with
  | nil => exact ⟨st, rfl, fun f hf => .inl hf⟩
  | cons f rest ih =>
    obtain ⟨hraise, hcopy⟩ := h f (List.mem_cons_self f rest)
    have hrest : ∀ g ∈ rest, g.readRaises = false ∧ g.copy = true :=
      fun g hg => h g (List.mem_cons_of_mem f hg)
    match hrc : f.readCode with
    | .error e =>
      rw [FileSpec.readRaises, hrc] at hraise
      exact absurd hraise (by simp)
    | .ok none =>
      obtain ⟨st2, heq, hmem⟩ := ih { st with errorFiles := st.errorFiles ++ [f] } hrest
      refine ⟨st2, ?_, ?_⟩
      · simpa only [runPass1, hrc] using heq
      · intro g hg
        rcases hmem g hg with hin | hin
        · rcases List.mem_append.mp hin with hin2 | hin2
          · exact .inl hin2
          · rw [List.mem_singleton.mp hin2]
            exact .inr (List.mem_cons_self f rest)
        · exact .inr (List.mem_cons_of_mem f hin)
    | .ok (some d) =>
      cases hl : f.lookup with
      | false =>
        obtain ⟨st2, heq, hmem⟩ := ih st hrest
        refine ⟨st2, ?_, fun g hg => (hmem g hg).imp id (List.mem_cons_of_mem f)⟩
        simpa only [runPass1, hrc, hl, Bool.not_false, if_true] using heq
      | true =>
        cases hs : f.store with
        | false =>
          obtain ⟨st2, heq, hmem⟩ := ih st hrest
          refine ⟨st2, ?_, fun g hg => (hmem g hg).imp id (List.mem_cons_of_mem f)⟩
          simpa only [runPass1, hrc, hl, hs, Bool.not_false, Bool.not_true, if_true,
            if_false] using heq
        | true =>
          obtain ⟨st2, heq, hmem⟩ := ih { st with processed := st.processed ++ [f.path] } hrest
          refine ⟨st2, ?_, ?_⟩
          · simpa only [runPass1, hrc, hl, hs, hcopy, Bool.not_false, Bool.not_true, if_true,
              if_false] using heq
          · intro g hg
            rcases hmem g hg with hin | hin
            · exact .inl hin
            · exact .inr (List.mem_cons_of_mem f hin)

theorem runPass2_no_abort (files : List FileSpec) (st : DriverState)
    (h : ∀ f ∈ files,
      f.manualSkip = true ∨ (f.lookup2 = true ∧ f.store2 = true ∧ f.copy2 = true)) :
    ∃ st2, runPass2 files st = .ok st2 := by
  induction files generalizing st with
  | nil => exact ⟨st, rfl⟩
  | cons f rest ih =>
    have hrest : ∀ g ∈ rest,
        g.manualSkip = true ∨ (g.lookup2 = true ∧ g.store2 = true ∧ g.copy2 = true) :=
      fun g hg => h g (List.mem_cons_of_mem f hg)
    cases hskip : f.manualSkip with
    | true =>
      obtain ⟨st2, heq⟩ := ih { st with still_cant_find := st.still_cant_find ++ [f.path] } hrest
      exact ⟨st2, by simpa only [runPass2, hskip, if_true] using heq⟩
    | false =>
      rcases h f (List.mem_cons_self f rest) with hskip2 | ⟨h2, h3, h4⟩
      · rw [hskip] at hskip2
        exact absurd hskip2 (by simp)
      · obtain ⟨st2, heq⟩ := ih { st with processed := st.processed ++ [f.path] } hrest
        exact ⟨st2, by simpa only [runPass2, hskip, h2, h3, h4, Bool.not_true, Bool.not_false,
          if_true, if_false] using heq⟩

/-! Claim theorems. -/

/-- C1 (code bug): appending a record whose ISBN is already stored does
report the duplicate, but does NOT leave the store unchanged: the second
`add_database` call with `isbn = 9784063600568` on a store that already
holds that ISBN prints the duplicate message and still appends, leaving
two rows with that ISBN instead of one (the early return intended by the
comments at src/main.py:144 and 150 is missing). -/
theorem c1_duplicate_isbn_still_appended :
    (add_database (add_database [] 9784063600568).store 9784063600568).duplicateReported
      = true ∧
    ((add_database (add_database [] 9784063600568).store 9784063600568).store.countP
      (fun row => row.isbn == 9784063600568)) = 2 := by
  decide

/-- C2 counterexample: the claim says a BookCode is produced only when
both slots are filled from the same page.  On the concrete input below,
the first page's two payloads fill only the ISBN slot and the second
page's two payloads fill only the detail-code slot, yet `read_code`
returns a complete BookCode: the slots were filled on different pages. -/
theorem c2_counterexample :
    scanPages [[9784063600568, 4567890123456]] BookJAN.empty =
      ⟨some "9784063600568", none⟩ ∧
    scanPages [[4567890123456, 1920001234567]] BookJAN.empty =
      ⟨none, some "1920001234567"⟩ ∧
    read_code "scan.pdf" true 10 2 Anchor.atEnd
      [[9784063600568, 4567890123456], [4567890123456, 1920001234567]] =
      .ok (.inl ⟨some "9784063600568", some "1920001234567"⟩) := by
  decide

/-- C2 (amended): the slot dictionary accumulates across the scanned
pages rather than per page.  A two-payload page after whose
classification the dictionary does not hold both slots yields no
BookCode at that point — scanning simply continues with the accumulated
dictionary — and a slot once filled is never cleared by later pages, so
a BookCode may combine slots filled on different pages. -/
theorem c2_slots_accumulate_across_pages (pgs : List (List Nat)) (pg : List Nat)
    (rest : List (List Nat)) (j : BookJAN) (hlen : pg.length = 2)
    (hsize : (pg.foldl classifyPayload j).size ≠ 2) :
    scanPages (pg :: rest) j = scanPages rest (pg.foldl classifyPayload j) ∧
    (j.isbn.isSome = false ∨ (scanPages pgs j).isbn.isSome = true) ∧
    (j.detailed_code.isSome = false ∨ (scanPages pgs j).detailed_code.isSome = true) := by
  refine ⟨?_, ?_, ?_⟩
  · simp only [scanPages]
    rw [if_neg (by omega), if_neg hsize]
  · cases hi : j.isbn.isSome with
    | false => exact .inl rfl
    | true => exact .inr (scanPages_isbn_mono pgs j hi)
  · cases hi : j.detailed_code.isSome with
    | false => exact .inl rfl
    | true => exact .inr (scanPages_detail_mono pgs j hi)

/-- Witness for C2 (amended) at a concrete page that fills only the
ISBN slot. -/
theorem c2_slots_accumulate_across_pages_witness :
    ([978, 555] : List Nat).length = 2 ∧
    (([978, 555] : List Nat).foldl classifyPayload BookJAN.empty).size ≠ 2 ∧
    (scanPages [[978, 555], [555, 192]] BookJAN.empty =
       scanPages [[555, 192]] (([978, 555] : List Nat).foldl classifyPayload BookJAN.empty) ∧
     (BookJAN.empty.isbn.isSome = false ∨ (scanPages [] BookJAN.empty).isbn.isSome = true) ∧
     (BookJAN.empty.detailed_code.isSome = false ∨
       (scanPages [] BookJAN.empty).detailed_code.isSome = true)) :=
  ⟨by decide, by decide,
    c2_slots_accumulate_across_pages [] [978, 555] [[555, 192]] BookJAN.empty
      (by decide) (by decide)⟩

/-- C3 counterexample: the claim says every per-file error is caught at
the driver level and never aborts the batch.  Concretely, a batch of two
files where the first file's copy step raises aborts immediately
(`main` returns `.error`) with the empty state: the second file was
never processed. -/
theorem c3_counterexample :
    main [fileCopyFails, fileAllOk] = .error ⟨[], [], []⟩ := by
  decide

/-- C3 (amended): only the `get_info` and `add_database` calls of the
automatic pass are guarded by `try`/bare `except:`; their failures skip
the file and never abort the batch.  Whenever the unguarded stages do
not raise — `read_code`, the automatic-pass copy, and (for files that
reach the manual pass) the manual-pass lookup/store/copy unless skipped
with `"!"` — the batch runs to completion regardless of how many
automatic-pass lookups and stores fail. -/
theorem c3_caught_errors_never_abort (files : List FileSpec)
    (h : files.all FileSpec.uncaughtStagesOk = true) :
    (main files).isOk = true := by
  rw [List.all_eq_true] at h
  have h1 : ∀ f ∈ files, f.readRaises = false ∧ f.copy = true := by
    intro f hf
    have hok := h f hf
    simp only [FileSpec.uncaughtStagesOk, Bool.and_eq_true, Bool.not_eq_true'] at hok
    exact ⟨hok.1.1, hok.1.2⟩
  obtain ⟨st1, heq1, hmem⟩ := runPass1_no_abort files ⟨[], [], []⟩ h1
  have h2 : ∀ f ∈ st1.errorFiles,
      f.manualSkip = true ∨ (f.lookup2 = true ∧ f.store2 = true ∧ f.copy2 = true) := by
    intro f hf
    rcases hmem f hf with hin | hin
    · simp at hin
    · have hok := h f hin
      simp only [FileSpec.uncaughtStagesOk, Bool.and_eq_true, Bool.or_eq_true,
        Bool.not_eq_true'] at hok
      rcases hok.2 with hskip | hrest2
      · exact .inl hskip
      · exact .inr ⟨hrest2.1.1, hrest2.1.2, hrest2.2⟩
  obtain ⟨st2, heq2⟩ := runPass2_no_abort st1.errorFiles st1 h2
  rw [main, heq1]
  dsimp only
  rw [heq2]
  rfl

/-- Witness for C3 (amended): a file whose automatic-pass lookup raises
(a caught error) is skipped and the batch still completes. -/
theorem c3_caught_errors_never_abort_witness :
    ([fileLookupFailsSkip].all FileSpec.uncaughtStagesOk = true) ∧
    (main [fileLookupFailsSkip]).isOk = true :=
  ⟨by decide, c3_caught_errors_never_abort [fileLookupFailsSkip] (by decide)⟩

/-- C4 counterexample: the claim says a file whose ISBN lookup fails
remains in the unresolved set so it is offered for manual entry.
Concretely, `get_info` does raise on a response without an `item`
element, but the driver's bare `except:` then drops the file entirely:
the final state of a one-file batch whose lookup raises is completely
empty — the file is not in the unresolved set (`error_pathes`), not in
`still_cant_find`, and not processed, so it is never offered for manual
entry. -/
theorem c4_counterexample :
    get_info "9784063600568" none = .error "lookup not found" ∧
    main [fileLookupFails] = .ok ⟨[], [], []⟩ := by
  decide

/-- C4 (amended): when the catalog response contains no `item` element
the lookup raises (`get_info` surfaces the error to its caller), but in
the driver's automatic pass this exception is caught by the bare
`except:` and the file is skipped entirely: it is not added to the
unresolved set and is not offered for manual entry — only files whose
barcode scan returned the path sentinel are. -/
theorem c4_lookup_not_found_file_dropped (f : FileSpec) (d : BookJAN) (isbn : String)
    (hr : f.readCode = .ok (some d)) (hl : f.lookup = false) :
    get_info isbn none = .error "lookup not found" ∧
    main [f] = .ok ⟨[], [], []⟩ := by
  refine ⟨rfl, ?_⟩
  rw [main]
  simp only [runPass1, hr, hl, Bool.not_false, if_true]
  rfl

/-- Witness for C4 (amended) at the concrete lookup-failing file. -/
theorem c4_lookup_not_found_file_dropped_witness :
    fileLookupFails.readCode =
      .ok (some ⟨some "9784063600568", some "1920001234567"⟩) ∧
    fileLookupFails.lookup = false ∧
    (get_info "9784063600568" none = .error "lookup not found" ∧
     main [fileLookupFails] = .ok ⟨[], [], []⟩) :=
  ⟨rfl, rfl,
    c4_lookup_not_found_file_dropped fileLookupFails
      ⟨some "9784063600568", some "1920001234567"⟩ "9784063600568" rfl rfl⟩

/-- C5 (code bug): for `page_count = 10` and `window = 3` with anchor
`"first"` — inputs the claim says must succeed with `first_page = 1` and
a 3-page range — `pageSelector` raises, because it computes
`last_page = number_of_pages + (pageAmount - 1) = 12 > 10` instead of
`first_page + (pageAmount - 1) = 3`.  Even `window = 1`, the only
window that does not raise, returns `last_page = 10`: a 10-page range
instead of a 1-page one. -/
theorem c5_first_anchor_raises_in_range :
    pageSelector 10 3 Anchor.first = .error "Out of range" ∧
    pageSelector 10 1 Anchor.first = .ok (1, 10) := by
  decide

/-- C6 (code bug): a PDF whose scanned range contains one page with two
payloads of which only the ISBN is classifiable yields no complete book
JAN code, yet `read_code` returns the one-slot dict
`{"isbn": "9784063600568"}` rather than the original file path, because
the final test at src/main.py:95 is `bool(book_JAN)` (dict non-empty)
instead of requiring both slots, contradicting the docstring (path
returned when no book JAN code is found, and the returned dict holds
both keys). -/
theorem c6_incomplete_code_returned_as_dict :
    read_code "book.pdf" true 10 3 Anchor.atEnd [[9784063600568, 4912345678904]] =
      .ok (.inl ⟨some "9784063600568", none⟩) := by
  decide

/-- C7: when the requested window exceeds the page count, both the
`pageSelector` of src/test.py (for both anchors) and the page-range
check of `read_code` (src/main.py:63, for either anchor) fail with the
range error. -/
theorem c7_window_exceeds_page_count (n w : Nat) (path : String)
    (pages : List (List Nat)) (sp : Anchor) (hn : 1 ≤ n) (hw : n < w) :
    pageSelector n w Anchor.first = .error "Out of range" ∧
    pageSelector n w Anchor.atEnd = .error "Out of range" ∧
    read_code path true n w sp pages = .error "page range exceeds page count" := by
  refine ⟨?_, ?_, ?_⟩
  · simp only [pageSelector]
    rw [if_pos (by omega)]
  · simp only [pageSelector]
    rw [if_pos (by omega)]
  · have hgt : pageRangeLen (w : Int) sp > n := by
      unfold pageRangeLen
      omega
    simp only [read_code, Bool.not_true]
    rw [if_neg (by simp), if_pos hgt]

/-- Witness for C7 at `page_count = 2`, `window = 5`. -/
theorem c7_window_exceeds_page_count_witness :
    1 ≤ 2 ∧ 2 < 5 ∧
    (pageSelector (2 : Nat) (5 : Nat) Anchor.first = .error "Out of range" ∧
     pageSelector (2 : Nat) (5 : Nat) Anchor.atEnd = .error "Out of range" ∧
     read_code "x.pdf" true 2 5 Anchor.first [] = .error "page range exceeds page count") :=
  ⟨by decide, by decide,
    c7_window_exceeds_page_count 2 5 "x.pdf" [] Anchor.first (by decide) (by decide)⟩

/-- C8: a page whose decoded payload count is not exactly 2, or whose
payloads include no recognized prefix at all, changes nothing: the scan
state is exactly the state of continuing with the next page of the
range, no slot is altered, and no exception arises (the page step of the
embedding is a total function whose error cases are only the pre-loop
checks of `read_code`).  `hacc` records that the loop only reaches a
further page while the accumulated dict is still incomplete (on a
complete dict the loop has already stopped). -/
theorem c8_invalid_pages_rejected (acc : BookJAN) (pg : List Nat)
    (rest : List (List Nat))
    (h : pg.length ≠ 2 ∨ allUnrecognized pg = true) (hacc : acc.size ≠ 2) :
    scanPages (pg :: rest) acc = scanPages rest acc := by
  cases h with
  | inl hlen =>
    simp only [scanPages]
    rw [if_pos (by omega)]
  | inr hall =>
    by_cases hc : pg.length ≤ 1 ∨ pg.length ≥ 3
    · simp only [scanPages]
      rw [if_pos hc]
    · simp only [scanPages]
      rw [if_neg hc, foldl_classifyPayload_unrecognized pg acc hall, if_neg hacc]

/-- Witness for C8 at a page of two unrecognized payloads. -/
theorem c8_invalid_pages_rejected_witness :
    (([444, 555] : List Nat).length ≠ 2 ∨ allUnrecognized [444, 555] = true) ∧
    BookJAN.empty.size ≠ 2 ∧
    scanPages [[444, 555]] BookJAN.empty = scanPages [] BookJAN.empty :=
  ⟨by decide, by decide,
    c8_invalid_pages_rejected BookJAN.empty [444, 555] [] (by decide) (by decide)⟩

/-- C9: for every title, volume fragment and ISBN, the filename produced
by `copy_and_name` contains no forbidden character; the sanitization is
the pointwise map of a fixed character function, so every occurrence of
a forbidden character is deterministically substituted, and every
forbidden character is substituted by the same single glyph `⦸`. -/
theorem c9_filename_sanitized (title book_issue_num isbn : String) :
    ((copy_and_name_filename title book_issue_num isbn).data.all
       (fun c => !isForbiddenChar c)) = true ∧
    (copy_and_name_filename title book_issue_num isbn).data =
      (title ++ "_" ++ book_issue_num ++ isbn ++ ".pdf").data.map replaceChar ∧
    (forbiddenList.all (fun c => replaceChar c == '⦸')) = true := by
  refine ⟨?_, rfl, by decide⟩
  simp only [copy_and_name_filename, sanitizeName, List.all_eq_true, List.mem_map]
  rintro c ⟨a, _, rfl⟩
  simp [replaceChar_not_forbidden]

/-- C10: the slot dictionary of `read_code` is initialized once per call
and never cleared between pages: on a PDF whose first in-range page's
two payloads fill only the ISBN slot and whose second in-range page's
two payloads fill only the detail-code slot, `read_code` returns a
BookCode whose two fields come from different pages. -/
theorem c10_bookcode_fields_from_different_pages :
    scanPages [[9781111111111, 5550000000000]] BookJAN.empty =
      ⟨some "9781111111111", none⟩ ∧
    scanPages [[5550000000000, 1920000123456]] BookJAN.empty =
      ⟨none, some "1920000123456"⟩ ∧
    read_code "scan.pdf" true 10 2 Anchor.atEnd
      [[9781111111111, 5550000000000], [5550000000000, 1920000123456]] =
      .ok (.inl ⟨some "9781111111111", some "1920000123456"⟩) := by
  decide

end BookInfo
